import Mathlib

set_option maxRecDepth 100000

/-!
Verification development for the cemuhook DSU UDP server of
steam-gyro-for-cemuhook (the `UdpServer` class together with its packet
codec, client registry and controller slot table).

Node `Buffer` values are modelled as `List Nat` whose entries are kept below
256 by every write.  All multi-byte writes follow the little-endian layout of
`Buffer.writeUInt16LE` / `Buffer.writeUInt32LE`; out-of-range stores truncate
modulo the field width exactly as those Node primitives do with
`noAssert = true`.  IEEE-754 float fields are carried as their 32-bit bit
patterns (Nat), since `writeFloatLE` just stores the four pattern bytes.
-/

/-- Byte read, `buffer[i]`.  Every read performed by the claims is in bounds;
out-of-range reads default to 0. -/
def byteAt (l : List Nat) (i : Nat) : Nat := l.getD i 0

/-- Byte store, `buffer[i] = v`.  Node coerces the value to an unsigned byte;
`List.set` ignores out-of-range indices (every store in the source is in
bounds for its buffer). -/
def setByte (l : List Nat) (i v : Nat) : List Nat := l.set i (v % 256)

/-- Model of `buffer.writeUInt16LE(v, i, true)`. -/
def writeUInt16LE (l : List Nat) (i v : Nat) : List Nat :=
  setByte (setByte l i v) (i + 1) (v / 256)

/-- Model of `buffer.writeUInt32LE(v, i, true)`. -/
def writeUInt32LE (l : List Nat) (i v : Nat) : List Nat :=
  setByte (setByte (setByte (setByte l i v) (i + 1) (v / 256)) (i + 2) (v / 65536))
    (i + 3) (v / 16777216)

/-- Model of `buffer.readUInt16LE(i)`. -/
def readUInt16LE (l : List Nat) (i : Nat) : Nat := byteAt l i + 256 * byteAt l (i + 1)

/-- Model of `buffer.readUInt32LE(i)`. -/
def readUInt32LE (l : List Nat) (i : Nat) : Nat :=
  byteAt l i + 256 * byteAt l (i + 1) + 65536 * byteAt l (i + 2) + 16777216 * byteAt l (i + 3)

/-- Model of `buffer.readInt32LE(i)` (two's-complement signed view). -/
def readInt32LE (l : List Nat) (i : Nat) : Int :=
  let v := readUInt32LE l i
  if v < 2147483648 then (v : Int) else (v : Int) - 4294967296

/-- Model of `buffer.fill(xs, i)` when the region from `i` to the end of the
buffer is exactly `xs.length` bytes (the only way the source uses it), and of
the `for (const part of xs) buffer[i++] = part` loops. -/
def fillAt (l : List Nat) (i : Nat) (xs : List Nat) : List Nat :=
  match xs with
  | [] => l
  | x :: rest => fillAt (setByte l i x) (i + 1) rest

/-- Reflected CRC-32 polynomial (IEEE 802.3), as used by the npm `crc`
package's `crc32`. -/
def crc32Poly : Nat := 0xEDB88320

/-- One bit step of the reflected CRC-32. -/
def crc32Round (c : Nat) : Nat := if c % 2 = 1 then (c / 2) ^^^ crc32Poly else c / 2

/-- One byte step of the reflected CRC-32 (eight bit rounds). -/
def crc32Byte (c b : Nat) : Nat :=
  crc32Round (crc32Round (crc32Round (crc32Round (crc32Round (crc32Round (crc32Round
    (crc32Round (c ^^^ (b % 256)))))))))

/-- Model of the npm `crc` package's `crc32` over a buffer: standard CRC-32
with initial value `0xFFFFFFFF` and final xor `0xFFFFFFFF`, returned as an
unsigned 32-bit number. -/
def crc32 (l : List Nat) : Nat := (l.foldl crc32Byte 0xFFFFFFFF) ^^^ 0xFFFFFFFF

/-- Zero out bytes 8..11 (the CRC field) of a datagram, as both the receiver
(`onMessage`) and the CRC invariant of the spec do. -/
def zeroCrc (l : List Nat) : List Nat := writeUInt32LE l 8 0

theorem length_setByte (l : List Nat) (i v : Nat) : (setByte l i v).length = l.length := by
  simp [setByte]

theorem length_writeUInt16LE (l : List Nat) (i v : Nat) :
    (writeUInt16LE l i v).length = l.length := by
  simp [writeUInt16LE, length_setByte]

theorem length_writeUInt32LE (l : List Nat) (i v : Nat) :
    (writeUInt32LE l i v).length = l.length := by
  simp [writeUInt32LE, length_setByte]

theorem length_fillAt (xs : List Nat) (l : List Nat) (i : Nat) :
    (fillAt l i xs).length = l.length := by
  induction xs generalizing l i with
  | nil => rfl
  | cons x rest ih => rw [fillAt, ih, length_setByte]

theorem byteAt_setByte_ne {i j : Nat} (h : i ≠ j) (l : List Nat) (v : Nat) :
    byteAt (setByte l j v) i = byteAt l i := by
  simp [byteAt, setByte, List.getD, List.getElem?_set_ne (Ne.symm h)]

theorem byteAt_setByte_self {j : Nat} (l : List Nat) (v : Nat) (h : j < l.length) :
    byteAt (setByte l j v) j = v % 256 := by
  simp [byteAt, setByte, List.getD, List.getElem?_set_self, h]

theorem byteAt_fillAt_lt (j : Nat) (xs : List Nat) :
    ∀ (i : Nat) (l : List Nat), j < i → byteAt (fillAt l i xs) j = byteAt l j := by
  induction xs with
  | nil => intro i l _; rfl
  | cons x rest ih =>
    intro i l h
    rw [fillAt, ih (i + 1) (setByte l i x) (by omega),
      byteAt_setByte_ne (show j ≠ i by omega)]

theorem byteAt_fillAt_ge (j : Nat) (xs : List Nat) :
    ∀ (i : Nat) (l : List Nat), i + xs.length ≤ j → byteAt (fillAt l i xs) j = byteAt l j := by
  induction xs with
  | nil => intro i l _; rfl
  | cons x rest ih =>
    intro i l h
    have hlen : (x :: rest).length = rest.length + 1 := by simp
    rw [fillAt, ih (i + 1) (setByte l i x) (by omega),
      byteAt_setByte_ne (show j ≠ i by omega)]

theorem byteAt_ite (c : Prop) [Decidable c] (a b : List Nat) (i : Nat) :
    byteAt (if c then a else b) i = if c then byteAt a i else byteAt b i :=
  apply_ite (fun l => byteAt l i) c a b

theorem length_ite (c : Prop) [Decidable c] (a b : List Nat) :
    (if c then a else b).length = if c then a.length else b.length :=
  apply_ite List.length c a b

theorem readUInt16LE_writeUInt16LE (l : List Nat) (i v : Nat) (h : i + 1 < l.length) :
    readUInt16LE (writeUInt16LE l i v) i = v % 65536 := by
  have e0 : byteAt (writeUInt16LE l i v) i = v % 256 := by
    rw [writeUInt16LE, byteAt_setByte_ne (by omega),
      byteAt_setByte_self _ _ (by omega)]
  have e1 : byteAt (writeUInt16LE l i v) (i + 1) = v / 256 % 256 := by
    rw [writeUInt16LE, byteAt_setByte_self _ _ (by rw [length_setByte]; omega)]
  rw [readUInt16LE, e0, e1]
  omega

theorem readUInt32LE_writeUInt32LE (l : List Nat) (i v : Nat) (h : i + 3 < l.length) :
    readUInt32LE (writeUInt32LE l i v) i = v % 4294967296 := by
  have e0 : byteAt (writeUInt32LE l i v) i = v % 256 := by
    rw [writeUInt32LE, byteAt_setByte_ne (by omega), byteAt_setByte_ne (by omega),
      byteAt_setByte_ne (by omega), byteAt_setByte_self _ _ (by omega)]
  have e1 : byteAt (writeUInt32LE l i v) (i + 1) = v / 256 % 256 := by
    rw [writeUInt32LE, byteAt_setByte_ne (by omega), byteAt_setByte_ne (by omega),
      byteAt_setByte_self _ _ (by rw [length_setByte]; omega)]
  have e2 : byteAt (writeUInt32LE l i v) (i + 2) = v / 65536 % 256 := by
    rw [writeUInt32LE, byteAt_setByte_ne (by omega),
      byteAt_setByte_self _ _ (by rw [length_setByte, length_setByte]; omega)]
  have e3 : byteAt (writeUInt32LE l i v) (i + 3) = v / 16777216 % 256 := by
    rw [writeUInt32LE,
      byteAt_setByte_self _ _ (by rw [length_setByte, length_setByte, length_setByte]; omega)]
  rw [readUInt32LE, e0, e1, e2, e3]
  omega

theorem setByte_byteAt_self (l : List Nat) (i : Nat) (h : byteAt l i = 0) :
    setByte l i 0 = l := by
  induction l generalizing i with
  | nil => rfl
  | cons x t ih =>
    cases i with
    | zero =>
      have hx : x = 0 := h
      simp [setByte, List.set, hx]
    | succ n =>
      have ht : setByte t n 0 = t := ih n h
      simp only [setByte, List.set] at ht ⊢
      rw [ht]

theorem writeUInt32LE_writeUInt32LE_same (l : List Nat) (i a b : Nat) :
    writeUInt32LE (writeUInt32LE l i a) i b = writeUInt32LE l i b := by
  apply List.ext_getElem?
  intro n
  simp only [writeUInt32LE, setByte, List.getElem?_set, List.length_set]
  split_ifs <;> rfl

theorem zeroCrc_of_zero (l : List Nat) (h8 : byteAt l 8 = 0) (h9 : byteAt l 9 = 0)
    (h10 : byteAt l 10 = 0) (h11 : byteAt l 11 = 0) : zeroCrc l = l := by
  rw [zeroCrc, writeUInt32LE]
  norm_num
  rw [setByte_byteAt_self _ 11 (by
    rw [byteAt_setByte_ne (by omega), byteAt_setByte_ne (by omega),
      byteAt_setByte_ne (by omega)]; exact h11)]
  rw [setByte_byteAt_self _ 10 (by
    rw [byteAt_setByte_ne (by omega), byteAt_setByte_ne (by omega)]; exact h10)]
  rw [setByte_byteAt_self _ 9 (by rw [byteAt_setByte_ne (by omega)]; exact h9)]
  exact setByte_byteAt_self _ 8 h8

/-- Model of `finishPacket`: write the CRC-32 of the current buffer contents
into bytes 8..11 (`data.writeUInt32LE(crc32(data), 8, true)`). -/
def finishPacket (data : List Nat) : List Nat := writeUInt32LE data 8 (crc32 data)

theorem crc32Round_lt (c : Nat) (h : c < 4294967296) : crc32Round c < 4294967296 := by
  have hp : (4294967296 : Nat) = 2 ^ 32 := by norm_num
  rw [crc32Round]
  split
  · rw [hp]
    exact Nat.xor_lt_two_pow (by omega) (by norm_num [crc32Poly])
  · omega

theorem crc32Byte_lt (c b : Nat) (h : c < 4294967296) : crc32Byte c b < 4294967296 := by
  have hp : (4294967296 : Nat) = 2 ^ 32 := by norm_num
  have h0 : c ^^^ (b % 256) < 4294967296 := by
    rw [hp]
    exact Nat.xor_lt_two_pow (by omega) (by omega)
  rw [crc32Byte]
  exact crc32Round_lt _ (crc32Round_lt _ (crc32Round_lt _ (crc32Round_lt _ (crc32Round_lt _
    (crc32Round_lt _ (crc32Round_lt _ (crc32Round_lt _ h0)))))))

theorem crc32_foldl_lt (l : List Nat) (c : Nat) (h : c < 4294967296) :
    l.foldl crc32Byte c < 4294967296 := by
  induction l generalizing c with
  | nil => exact h
  | cons x t ih => exact ih _ (crc32Byte_lt c x h)

theorem crc32_lt (l : List Nat) : crc32 l < 4294967296 := by
  have hp : (4294967296 : Nat) = 2 ^ 32 := by norm_num
  rw [crc32, hp]
  exact Nat.xor_lt_two_pow (hp ▸ crc32_foldl_lt l _ (by norm_num)) (by norm_num)

theorem finishPacket_crc_ok (l : List Nat) (hlen : 11 < l.length) (h8 : byteAt l 8 = 0)
    (h9 : byteAt l 9 = 0) (h10 : byteAt l 10 = 0) (h11 : byteAt l 11 = 0) :
    readUInt32LE (finishPacket l) 8 = crc32 (zeroCrc (finishPacket l)) := by
  have hz : zeroCrc (finishPacket l) = l := by
    rw [zeroCrc, finishPacket, writeUInt32LE_writeUInt32LE_same]
    exact zeroCrc_of_zero l h8 h9 h10 h11
  rw [hz, finishPacket, readUInt32LE_writeUInt32LE _ _ _ (by omega)]
  exact Nat.mod_eq_of_lt (crc32_lt l)

/-- Modelled from the spec: the numeric message-type and version constants
(`UdpServerMessage`, `UdpServerDefaults.MaxProtocolVer`) live in a models
module that is not among the provided sources; per the spec they are the
reference DSU wire values, reproduced here. -/
def DSUC_VersionReq : Nat := 0x100000

/-- Reference DSU wire value (see `DSUC_VersionReq`). -/
def DSUS_VersionRsp : Nat := 0x100000

/-- Reference DSU wire value (see `DSUC_VersionReq`). -/
def DSUC_ListPorts : Nat := 0x100001

/-- Reference DSU wire value (see `DSUC_VersionReq`). -/
def DSUS_PortInfo : Nat := 0x100001

/-- Reference DSU wire value (see `DSUC_VersionReq`). -/
def DSUC_PadDataReq : Nat := 0x100002

/-- Reference DSU wire value (see `DSUC_VersionReq`). -/
def DSUS_PadDataRsp : Nat := 0x100002

/-- Reference DSU protocol version constant (the spec fixes outbound packets
to version `1001` and `MaxProtocolVer` is that same value). -/
def MaxProtocolVer : Nat := 1001

/-- Shorthand from the source: `charCode(c)` is `c.charCodeAt(0)`. -/
def charCode (c : Char) : Nat := c.toNat

/-- Auxiliary splitter: JS `String.split` with a one-character separator,
empty segments preserved. -/
def splitOnCharAux (sep : Char) : List Char → List Char → List (List Char)
  | [], acc => [acc.reverse]
  | c :: rest, acc =>
    if c = sep then acc.reverse :: splitOnCharAux sep rest []
    else splitOnCharAux sep rest (c :: acc)

/-- JS `s.split(sep)` for a one-character separator. -/
def jsSplit (s : String) (sep : Char) : List String :=
  (splitOnCharAux sep s.data []).map String.mk

/-- Hexadecimal digit value of a character, if any. -/
def hexDigit? (c : Char) : Option Nat :=
  if '0' ≤ c ∧ c ≤ '9' then some (c.toNat - '0'.toNat)
  else if 'a' ≤ c ∧ c ≤ 'f' then some (c.toNat - 'a'.toNat + 10)
  else if 'A' ≤ c ∧ c ≤ 'F' then some (c.toNat - 'A'.toNat + 10)
  else none

/-- Auxiliary accumulator for `parseIntHex`. -/
def parseIntHexAux : List Char → Nat → Nat
  | [], acc => acc
  | c :: rest, acc =>
    match hexDigit? c with
    | some d => parseIntHexAux rest (16 * acc + d)
    | none => acc

/-- Model of `parseInt(part, 16)` restricted to the strings arising here
(bare runs of hexadecimal digits): the value of the leading digit run, or 0
when there is none (a `NaN` stored into a byte reads back as 0). -/
def parseIntHex (s : String) : Nat := parseIntHexAux s.data 0

/-- The MAC-byte formatter of the `DSUC_PadDataReq` branch, verbatim:
`(data[index] < 15 ? "0" : "") + data[index].toString(16)`. -/
def macPartToHex (b : Nat) : String :=
  (if b < 15 then "0" else "") ++ String.mk (Nat.toDigits 16 b)

/-- The registry key built from the six MAC bytes at `index` of a
`DSUC_PadDataReq` datagram (`macToRegister.join(":")`). -/
def macToRegisterKey (data : List Nat) (index : Nat) : String :=
  String.intercalate ":" ((List.range 6).map (fun i => macPartToHex (byteAt data (index + i))))

/-- The dPad portion of a `DualshockReport.button`. -/
structure DPadState where
  UP : Bool
  DOWN : Bool
  LEFT : Bool
  RIGHT : Bool
deriving DecidableEq

/-- Named buttons of a `DualshockReport`. -/
structure ButtonState where
  dPad : DPadState
  CROSS : Bool
  CIRCLE : Bool
  SQUARE : Bool
  TRIANGLE : Bool
  L1 : Bool
  R1 : Bool
  L2 : Bool
  R2 : Bool
  L3 : Bool
  R3 : Bool
  options : Bool
  share : Bool
  PS : Bool
  touch : Bool
deriving DecidableEq

/-- One analog stick position, each axis a byte. -/
structure StickPos where
  x : Nat
  y : Nat
deriving DecidableEq

/-- Both stick positions. -/
structure StickPair where
  left : StickPos
  right : StickPos
deriving DecidableEq

/-- Analog trigger values. -/
structure TriggerState where
  R2 : Nat
  L2 : Nat
deriving DecidableEq

/-- One trackpad touch point. -/
structure TrackPadTouch where
  isActive : Bool
  id : Nat
  x : Nat
  y : Nat
deriving DecidableEq

/-- The two trackpad touch points. -/
structure TrackPadPair where
  first : TrackPadTouch
  second : TrackPadTouch
deriving DecidableEq

/-- The 64-bit motion timestamp, split into its JS `low`/`high` halves. -/
structure MotionStamp where
  low : Nat
  high : Nat
deriving DecidableEq

/-- A three-axis float vector, each component carried as its IEEE-754 32-bit
pattern (`writeFloatLE` stores exactly those four bytes). -/
structure Vec3Bits where
  x : Nat
  y : Nat
  z : Nat
deriving DecidableEq

/-- The normalized controller report (`DualshockReport` of
node-controller-api), with the fields `handleReport` serializes. -/
structure DualshockReport where
  packetCounter : Nat
  button : ButtonState
  position : StickPair
  trigger : TriggerState
  trackPad : TrackPadPair
  motionTimestamp : MotionStamp
  accelerometer : Vec3Bits
  gyro : Vec3Bits
deriving DecidableEq

/-- Controller metadata (`DualshockMeta` of node-controller-api). -/
structure DualshockMeta where
  padId : Nat
  state : Nat
  model : Nat
  connectionType : Nat
  macAddress : String
  batteryStatus : Nat
  isActive : Bool
deriving DecidableEq

/-- A controller report event (`DualshockData`). -/
structure DualshockData where
  meta : DualshockMeta
  report : DualshockReport
deriving DecidableEq

/-- The header writes of `UdpServer.beginPacket` (magic `"DSUS"`, protocol
version, payload length `data.length - 16`, zeroed CRC field, server ID);
the source then returns index 16. -/
def beginPacketRaw (data : List Nat) (protocolVer serverId : Nat) : List Nat :=
  let data := setByte data 0 (charCode 'D')
  let data := setByte data 1 (charCode 'S')
  let data := setByte data 2 (charCode 'U')
  let data := setByte data 3 (charCode 'S')
  let data := writeUInt16LE data 4 protocolVer
  let data := writeUInt16LE data 6 (data.length - 16)
  let data := writeUInt32LE data 8 0
  writeUInt32LE data 12 serverId

/-- Model of `UdpServer.beginPacket`; `none` models the error thrown when the
buffer is smaller than the 16-byte header. -/
def beginPacket (data : List Nat) (protocolVer serverId : Nat) : Option (List Nat) :=
  if 16 ≤ data.length then some (beginPacketRaw data protocolVer serverId) else none

/-- Model of `UdpServer.sendPacket`'s datagram construction: allocate
`data.length + 16` bytes, write the header, copy the body at offset 16 (the
index `beginPacket` returns), then write the CRC.  The socket send is
modelled by returning the finished datagram (the `[]` branch is the
unreachable `beginPacket` failure: the buffer is always at least 16 bytes). -/
def sendPacketBuffer (data : List Nat) (protocolVer serverId : Nat) : List Nat :=
  let buffer := List.replicate (data.length + 16) 0
  match beginPacket buffer protocolVer serverId with
  | some b => finishPacket (fillAt b 16 data)
  | none => []

/-- The body writes of `handleReport` on the 100-byte pad-data buffer, after
`beginPacket` returned index 16.  Each `let` mirrors one source line;
`outBuffer[outIndex++] = v` advances the index after the store,
`outBuffer[++outIndex] = v` advances it before, and the bare `outIndex++`
between the trigger bytes and the first touch block only switches between
those two styles (it does not skip a byte). -/
def padDataBody (outBuffer : List Nat) (meta : DualshockMeta) (report : DualshockReport) :
    List Nat :=
  let outIndex := 16
  let outBuffer := writeUInt32LE outBuffer outIndex DSUS_PadDataRsp
  let outIndex := outIndex + 4
  let outBuffer := setByte outBuffer outIndex meta.padId
  let outIndex := outIndex + 1
  let outBuffer := setByte outBuffer outIndex meta.state
  let outIndex := outIndex + 1
  let outBuffer := setByte outBuffer outIndex meta.model
  let outIndex := outIndex + 1
  let outBuffer := setByte outBuffer outIndex meta.connectionType
  let outIndex := outIndex + 1
  let mac := (jsSplit meta.macAddress ':').map parseIntHex
  let outBuffer := fillAt outBuffer outIndex mac
  let outIndex := outIndex + mac.length
  let outBuffer := setByte outBuffer outIndex meta.batteryStatus
  let outIndex := outIndex + 1
  let outBuffer := setByte outBuffer outIndex (if meta.isActive then 0x01 else 0x00)
  let outIndex := outIndex + 1
  let outBuffer := writeUInt32LE outBuffer outIndex report.packetCounter
  let outIndex := outIndex + 4
  let outBuffer := setByte outBuffer outIndex 0
  let outBuffer := if report.button.dPad.LEFT then
    setByte outBuffer outIndex (byteAt outBuffer outIndex ||| 0x80) else outBuffer
  let outBuffer := if report.button.dPad.DOWN then
    setByte outBuffer outIndex (byteAt outBuffer outIndex ||| 0x40) else outBuffer
  let outBuffer := if report.button.dPad.RIGHT then
    setByte outBuffer outIndex (byteAt outBuffer outIndex ||| 0x20) else outBuffer
  let outBuffer := if report.button.dPad.UP then
    setByte outBuffer outIndex (byteAt outBuffer outIndex ||| 0x10) else outBuffer
  let outBuffer := if report.button.options then
    setByte outBuffer outIndex (byteAt outBuffer outIndex ||| 0x08) else outBuffer
  let outBuffer := if report.button.R3 then
    setByte outBuffer outIndex (byteAt outBuffer outIndex ||| 0x04) else outBuffer
  let outBuffer := if report.button.L3 then
    setByte outBuffer outIndex (byteAt outBuffer outIndex ||| 0x02) else outBuffer
  let outBuffer := if report.button.share then
    setByte outBuffer outIndex (byteAt outBuffer outIndex ||| 0x01) else outBuffer
  let outIndex := outIndex + 1
  let outBuffer := setByte outBuffer outIndex 0
  let outBuffer := if report.button.SQUARE then
    setByte outBuffer outIndex (byteAt outBuffer outIndex ||| 0x80) else outBuffer
  let outBuffer := if report.button.CROSS then
    setByte outBuffer outIndex (byteAt outBuffer outIndex ||| 0x40) else outBuffer
  let outBuffer := if report.button.CIRCLE then
    setByte outBuffer outIndex (byteAt outBuffer outIndex ||| 0x20) else outBuffer
  let outBuffer := if report.button.TRIANGLE then
    setByte outBuffer outIndex (byteAt outBuffer outIndex ||| 0x10) else outBuffer
  let outBuffer := if report.button.R1 then
    setByte outBuffer outIndex (byteAt outBuffer outIndex ||| 0x08) else outBuffer
  let outBuffer := if report.button.L1 then
    setByte outBuffer outIndex (byteAt outBuffer outIndex ||| 0x04) else outBuffer
  let outBuffer := if report.button.R2 then
    setByte outBuffer outIndex (byteAt outBuffer outIndex ||| 0x02) else outBuffer
  let outBuffer := if report.button.L2 then
    setByte outBuffer outIndex (byteAt outBuffer outIndex ||| 0x01) else outBuffer
  let outIndex := outIndex + 1
  let outBuffer := setByte outBuffer outIndex (if report.button.PS then 0x01 else 0x00)
  let outIndex := outIndex + 1
  let outBuffer := setByte outBuffer outIndex (if report.button.touch then 0x01 else 0x00)
  let outIndex := outIndex + 1
  let outBuffer := setByte outBuffer outIndex report.position.left.x
  let outIndex := outIndex + 1
  let outBuffer := setByte outBuffer outIndex report.position.left.y
  let outIndex := outIndex + 1
  let outBuffer := setByte outBuffer outIndex report.position.right.x
  let outIndex := outIndex + 1
  let outBuffer := setByte outBuffer outIndex report.position.right.y
  let outIndex := outIndex + 1
  let outBuffer := setByte outBuffer outIndex (if report.button.dPad.LEFT then 0xFF else 0x00)
  let outIndex := outIndex + 1
  let outBuffer := setByte outBuffer outIndex (if report.button.dPad.DOWN then 0xFF else 0x00)
  let outIndex := outIndex + 1
  let outBuffer := setByte outBuffer outIndex (if report.button.dPad.RIGHT then 0xFF else 0x00)
  let outIndex := outIndex + 1
  let outBuffer := setByte outBuffer outIndex (if report.button.dPad.UP then 0xFF else 0x00)
  let outIndex := outIndex + 1
  let outBuffer := setByte outBuffer outIndex (if report.button.SQUARE then 0xFF else 0x00)
  let outIndex := outIndex + 1
  let outBuffer := setByte outBuffer outIndex (if report.button.CROSS then 0xFF else 0x00)
  let outIndex := outIndex + 1
  let outBuffer := setByte outBuffer outIndex (if report.button.CIRCLE then 0xFF else 0x00)
  let outIndex := outIndex + 1
  let outBuffer := setByte outBuffer outIndex (if report.button.TRIANGLE then 0xFF else 0x00)
  let outIndex := outIndex + 1
  let outBuffer := setByte outBuffer outIndex (if report.button.R1 then 0xFF else 0x00)
  let outIndex := outIndex + 1
  let outBuffer := setByte outBuffer outIndex (if report.button.L1 then 0xFF else 0x00)
  let outIndex := outIndex + 1
  let outBuffer := setByte outBuffer outIndex report.trigger.R2
  let outIndex := outIndex + 1
  let outBuffer := setByte outBuffer outIndex report.trigger.L2
  let outIndex := outIndex + 1
  let outBuffer := setByte outBuffer outIndex (if report.trackPad.first.isActive then 0x01 else 0x00)
  let outIndex := outIndex + 1
  let outBuffer := setByte outBuffer outIndex report.trackPad.first.id
  let outIndex := outIndex + 1
  let outBuffer := writeUInt16LE outBuffer outIndex report.trackPad.first.x
  let outIndex := outIndex + 2
  let outBuffer := writeUInt16LE outBuffer outIndex report.trackPad.first.y
  let outIndex := outIndex + 2
  let outBuffer := setByte outBuffer outIndex (if report.trackPad.second.isActive then 0x01 else 0x00)
  let outIndex := outIndex + 1
  let outBuffer := setByte outBuffer outIndex report.trackPad.second.id
  let outIndex := outIndex + 1
  let outBuffer := writeUInt16LE outBuffer outIndex report.trackPad.second.x
  let outIndex := outIndex + 2
  let outBuffer := writeUInt16LE outBuffer outIndex report.trackPad.second.y
  let outIndex := outIndex + 2
  let outBuffer := writeUInt32LE outBuffer outIndex report.motionTimestamp.low
  let outIndex := outIndex + 4
  let outBuffer := writeUInt32LE outBuffer outIndex report.motionTimestamp.high
  let outIndex := outIndex + 4
  let outBuffer := writeUInt32LE outBuffer outIndex report.accelerometer.x
  let outIndex := outIndex + 4
  let outBuffer := writeUInt32LE outBuffer outIndex report.accelerometer.y
  let outIndex := outIndex + 4
  let outBuffer := writeUInt32LE outBuffer outIndex report.accelerometer.z
  let outIndex := outIndex + 4
  let outBuffer := writeUInt32LE outBuffer outIndex report.gyro.x
  let outIndex := outIndex + 4
  let outBuffer := writeUInt32LE outBuffer outIndex report.gyro.y
  let outIndex := outIndex + 4
  let outBuffer := writeUInt32LE outBuffer outIndex report.gyro.z
  outBuffer

/-- The complete 100-byte `DSUS_PadDataRsp` datagram `handleReport` builds:
`Buffer.alloc(100)`, header via `beginPacket(outBuffer, 1001)`, body, CRC via
`finishPacket`.  The `[]` branch is the unreachable `beginPacket` failure. -/
def padDataBuffer (serverId : Nat) (meta : DualshockMeta) (report : DualshockReport) :
    List Nat :=
  match beginPacket (List.replicate 100 0) 1001 serverId with
  | some b => finishPacket (padDataBody b meta report)
  | none => []

/-- Per-client request timestamps (`ClientRequestTimes`).  The provided
sources only show its fields through their use in `getClientsForReport` and
the `registerPadRequest` call; the class module itself is not under src/. -/
structure ClientRequestTimes where
  timeForAllPads : Int
  timeForPadById : List Int
  timeForPadByMac : List (String × Int)
deriving DecidableEq

/-- JS `Map.get` on an association list kept in insertion order. -/
def mapGet? (m : List (String × Int)) (k : String) : Option Int :=
  (m.find? (fun p => p.1 == k)).map Prod.snd

/-- JS `Map.set` on an association list: update in place or append. -/
def mapSet (m : List (String × Int)) (k : String) (v : Int) : List (String × Int) :=
  if m.any (fun p => p.1 == k) then m.map (fun p => if p.1 == k then (p.1, v) else p)
  else m ++ [(k, v)]

/-- Modelled from the spec: `new ClientRequestTimes()` (the class body is not
under src/) starts every dimension at "never"; timestamp 0 on the epoch
scale plays that role. -/
def ClientRequestTimes.init : ClientRequestTimes :=
  { timeForAllPads := 0, timeForPadById := [0, 0, 0, 0], timeForPadByMac := [] }

/-- Modelled from the spec: `registerPadRequest(flags, id, mac)` (the method
body is not under src/) stamps "now" on the dimensions the flags byte
selects: no bits set registers all pads, bit 0 the given pad id, bit 1 the
given MAC. -/
def ClientRequestTimes.registerPadRequest (t : ClientRequestTimes) (flags idToRegister : Nat)
    (mac : String) (now : Int) : ClientRequestTimes :=
  if flags = 0 then { t with timeForAllPads := now }
  else
    let t := if flags % 2 = 1 then
      { t with timeForPadById := t.timeForPadById.set idToRegister now } else t
    if flags / 2 % 2 = 1 then { t with timeForPadByMac := mapSet t.timeForPadByMac mac now }
    else t

/-- A Node `AddressInfo` endpoint as delivered to the message handler.  `ref`
models JS object identity: the dgram layer allocates a fresh `rinfo` object
for every datagram, and the source keys its client `Map` by that object, so
the keys compare by identity, not by (address, port) value. -/
structure AddressInfo where
  ref : Nat
  address : String
  port : Nat
deriving DecidableEq

/-- An occupied controller slot, reduced to what the dispatcher reads from it
(`controller.device.dualShockMeta`). -/
structure ControllerSlot where
  dualShockMeta : Option DualshockMeta
deriving DecidableEq

/-- The `UdpServer` state touched by the modelled operations: whether a
socket is open, the construction-time server ID, the four controller slots,
and the client registry in `Map` insertion order. -/
structure ServerState where
  socketOpen : Bool
  serverId : Nat
  controllers : List (Option ControllerSlot)
  clients : List (AddressInfo × ClientRequestTimes)
deriving DecidableEq

/-- The validation errors `onMessage` throws; each lands on the server's
error stream via the catch-all around the handler. -/
inductive UdpError where
  | outdatedProtocol
  | negativePacketSize
  | crcMismatch
  | numPadRequestsOutOfRange
  | padIndexOutOfRange
deriving DecidableEq

/-- Model of `removeController(index)` for a definite index, with the
source's bounds check verbatim: `index > 0 && index < this.controllers.length`,
then empty the slot if occupied (unsubscribing is dropping the record). -/
def removeControllerAt (controllers : List (Option ControllerSlot)) (index : Nat) :
    List (Option ControllerSlot) :=
  if 0 < index ∧ index < controllers.length then
    if controllers.getD index none ≠ none then controllers.set index none else controllers
  else controllers

/-- Model of `removeController()` with no argument:
`for (let i = 0; i < this.controllers.length; i++) this.removeController(i)`. -/
def removeControllerAll (controllers : List (Option ControllerSlot)) :
    List (Option ControllerSlot) :=
  (List.range controllers.length).foldl removeControllerAt controllers

/-- Freshness test used throughout the registry:
`currentTime - timestamp < ClientTimeoutLimit`. -/
def fresh (now limit t : Int) : Bool := decide (now - t < limit)

/-- One iteration of the `for (const [info, times] of this.clients)` loop of
`getClientsForReport`: the accumulator carries the `clients` and
`clientsToDelete` arrays.  The if/else-if chain and the two `isClientOk`
scans are the source's, in order. -/
def clientsForStep (meta : DualshockMeta) (currentTime limit : Int)
    (acc : List AddressInfo × List AddressInfo) (p : AddressInfo × ClientRequestTimes) :
    List AddressInfo × List AddressInfo :=
  let info := p.1
  let times := p.2
  if fresh currentTime limit times.timeForAllPads then (acc.1 ++ [info], acc.2)
  else if decide (meta.padId < times.timeForPadById.length) &&
      fresh currentTime limit (times.timeForPadById.getD meta.padId 0) then
    (acc.1 ++ [info], acc.2)
  else if (match mapGet? times.timeForPadByMac meta.macAddress with
      | some t => fresh currentTime limit t
      | none => false) then
    (acc.1 ++ [info], acc.2)
  else if times.timeForPadById.any (fun t => fresh currentTime limit t) ||
      times.timeForPadByMac.any (fun q => fresh currentTime limit q.2) then
    acc
  else (acc.1, acc.2 ++ [info])

/-- Model of `UdpServer.getClientsForReport`: one pass over the registry in
insertion order collecting interested clients and clients to delete, then
the deletions (`Map.delete` by key).  `currentTime` is `Date.now()`; `limit`
is the `UdpServerDefaults.ClientTimeoutLimit` constant, kept as a parameter
because its numeric value lives in a module that is not under src/. -/
def getClientsForReport (clientsMap : List (AddressInfo × ClientRequestTimes))
    (meta : DualshockMeta) (currentTime limit : Int) :
    List AddressInfo × List (AddressInfo × ClientRequestTimes) :=
  let pass := clientsMap.foldl (clientsForStep meta currentTime limit) ([], [])
  (pass.1, clientsMap.filter (fun p => decide (p.1 ∉ pass.2)))

/-- The spec's interest rule for `clientsFor`, stated from its words: a fresh
all-pads stamp, a fresh stamp for this report's pad id, or a fresh stamp for
this report's MAC. -/
def clientInterested (meta : DualshockMeta) (now limit : Int)
    (times : ClientRequestTimes) : Bool :=
  fresh now limit times.timeForAllPads ||
  (decide (meta.padId < times.timeForPadById.length) &&
    fresh now limit (times.timeForPadById.getD meta.padId 0)) ||
  (match mapGet? times.timeForPadByMac meta.macAddress with
   | some t => fresh now limit t
   | none => false)

/-- The spec's retention rule: some timestamp (all-pads, any per-pad, any
per-MAC) is fresh. -/
def clientAnyFresh (now limit : Int) (times : ClientRequestTimes) : Bool :=
  fresh now limit times.timeForAllPads ||
  times.timeForPadById.any (fun t => fresh now limit t) ||
  times.timeForPadByMac.any (fun q => fresh now limit q.2)

/-- The 16-byte `DSUS_PortInfo` body built per requested pad in the
`DSUC_ListPorts` branch (the `macAddress !== null` half of the source's
guard is subsumed by modelling `macAddress` as a string). -/
def portInfoBody (meta : DualshockMeta) : List Nat :=
  let outBuffer := List.replicate 16 0
  let outBuffer := writeUInt32LE outBuffer 0 DSUS_PortInfo
  let outIndex := 4
  let outBuffer := setByte outBuffer outIndex meta.padId
  let outIndex := outIndex + 1
  let outBuffer := setByte outBuffer outIndex meta.state
  let outIndex := outIndex + 1
  let outBuffer := setByte outBuffer outIndex meta.model
  let outIndex := outIndex + 1
  let outBuffer := setByte outBuffer outIndex meta.connectionType
  let outIndex := outIndex + 1
  let parts := if meta.macAddress.length = 17 then (jsSplit meta.macAddress ':').map parseIntHex
    else List.replicate 6 0
  let outBuffer := fillAt outBuffer outIndex parts
  let outIndex := outIndex + parts.length
  let outBuffer := setByte outBuffer outIndex meta.batteryStatus
  let outIndex := outIndex + 1
  setByte outBuffer outIndex 0

/-- Model of `UdpServer.onMessage` as a pure transition: given the server
state, the datagram bytes, the (freshly allocated) endpoint object and the
current time, it returns the new state, the datagrams sent in response, and
the errors thrown onto the error stream.  Reads are total (out-of-range
Buffer reads are not modelled; every claim concerns length-adequate
datagrams).  Mirrors the source's order: magic check (silently ignoring
non-"DSUC" data), version check, declared-size check, CRC check after
zeroing bytes 8..11 in place, then dispatch on the message type. -/
def onMessage (st : ServerState) (data : List Nat) (clientEndpoint : AddressInfo) (now : Int) :
    ServerState × List (AddressInfo × List Nat) × List UdpError :=
  if byteAt data 0 = charCode 'D' ∧ byteAt data 1 = charCode 'S' ∧
      byteAt data 2 = charCode 'U' ∧ byteAt data 3 = charCode 'C' then
    let protocolVer := readUInt16LE data 4
    if MaxProtocolVer < protocolVer then (st, [], [UdpError.outdatedProtocol])
    else
      let packetSize := readUInt16LE data 6
      if packetSize < 0 then (st, [], [UdpError.negativePacketSize])
      else
        let receivedCrc := readUInt32LE data 8
        let data := zeroCrc data
        let computedCrc := crc32 data
        if receivedCrc ≠ computedCrc then (st, [], [UdpError.crcMismatch])
        else
          let _clientId := readUInt32LE data 12
          let msgType := readUInt32LE data 16
          if msgType = DSUC_VersionReq then
            let outBuffer := writeUInt32LE (writeUInt32LE (List.replicate 8 0) 0 DSUS_VersionRsp)
              4 MaxProtocolVer
            (st, [(clientEndpoint, sendPacketBuffer outBuffer 1001 st.serverId)], [])
          else if msgType = DSUC_ListPorts then
            let numOfPadRequests := readInt32LE data 20
            if numOfPadRequests < 0 ∨ 4 < numOfPadRequests then
              (st, [], [UdpError.numPadRequestsOutOfRange])
            else
              let n := numOfPadRequests.toNat
              if (List.range n).any (fun i => decide (3 < byteAt data (24 + i))) then
                (st, [], [UdpError.padIndexOutOfRange])
              else
                let packets := (List.range n).filterMap (fun i =>
                  let requestIndex := byteAt data (24 + i)
                  match st.controllers.getD requestIndex none with
                  | some controller =>
                    match controller.dualShockMeta with
                    | some meta =>
                      some (clientEndpoint, sendPacketBuffer (portInfoBody meta) 1001 st.serverId)
                    | none => none
                  | none => none)
                (st, packets, [])
          else if msgType = DSUC_PadDataReq then
            let registrationFlags := byteAt data 20
            let idToRRegister := byteAt data 21
            let macToRegister := macToRegisterKey data 22
            let clients :=
              if st.clients.any (fun p => p.1.ref == clientEndpoint.ref) then st.clients
              else st.clients ++ [(clientEndpoint, ClientRequestTimes.init)]
            let clients := clients.map (fun p =>
              if p.1.ref == clientEndpoint.ref then
                (p.1, p.2.registerPadRequest registrationFlags idToRRegister macToRegister now)
              else p)
            ({ st with clients := clients }, [], [])
          else (st, [], [])
  else (st, [], [])

/-- Model of `UdpServer.handleReport`: with a null socket nothing at all
happens; otherwise the registry sweep runs, and when at least one client is
interested the 100-byte pad-data datagram is built once and sent to each. -/
def handleReport (st : ServerState) (data : DualshockData) (now limit : Int) :
    ServerState × List (AddressInfo × List Nat) :=
  if st.socketOpen then
    let meta := data.meta
    let pass := getClientsForReport st.clients meta now limit
    let st := { st with clients := pass.2 }
    if 0 < pass.1.length then
      let outBuffer := padDataBuffer st.serverId meta data.report
      (st, pass.1.map (fun c => (c, outBuffer)))
    else (st, [])
  else (st, [])

/-- Modelled from the library contract of random-js: `integer(min, max)`
draws from the closed interval `[min, max]`, both endpoints included. -/
def randomIntegerRange (lo hi : Nat) : Set Nat := {n | lo ≤ n ∧ n ≤ hi}

/-- The values the construction-time draw
`randomJS().integer(0, 4294967296)` for `UdpServer.serverId` can produce. -/
def serverIdRange : Set Nat := randomIntegerRange 0 4294967296

/-- Claim C5 (code bug): `removeController(0)` is supposed to empty an
occupied slot 0 and `removeController()` to clear all four slots, but the
source's bounds check `index > 0 && index < this.controllers.length` rejects
index 0, so slot 0 survives both calls; other valid indices do work. -/
theorem removeController_slot_zero_never_removed :
    removeControllerAt [some ⟨none⟩, none, none, none] 0 = [some ⟨none⟩, none, none, none] ∧
    removeControllerAll [some ⟨none⟩, some ⟨none⟩, none, none] =
      [some ⟨none⟩, none, none, none] ∧
    removeControllerAt [none, some ⟨none⟩, none, none] 1 = [none, none, none, none] :=
  ⟨by decide, by decide, by decide⟩

/-- Claim C8 (code bug): the MAC formatter of the pad-data-request branch
pads with "0" only when the byte is strictly below 15 (the test should be
below 16), so byte 0x0f renders as the single digit "f" instead of "0f" and
the registry key for a MAC ending in 0x0f is not canonical; every other byte
value renders as two lowercase hex digits. -/
theorem macPartToHex_fifteen_single_digit :
    macPartToHex 15 = "f" ∧ macPartToHex 15 ≠ "0f" ∧ macPartToHex 14 = "0e" ∧
    macPartToHex 16 = "10" ∧ macPartToHex 255 = "ff" ∧ macPartToHex 0 = "00" ∧
    macToRegisterKey [170, 187, 204, 221, 238, 15] 0 = "aa:bb:cc:dd:ee:f" :=
  ⟨by decide, by decide, by decide, by decide, by decide, by decide, by decide⟩

/-- Claim C9 (code bug): the construction-time draw
`randomJS().integer(0, 4294967296)` includes its upper endpoint, so the
server ID can be 2^32, which is not a u32 value; written little-endian at
offset 12 of the header it then wraps to 0. -/
theorem serverId_draw_can_exceed_u32 :
    (4294967296 : Nat) ∈ serverIdRange ∧ ¬((4294967296 : Nat) < 2 ^ 32) ∧
    readUInt32LE (beginPacketRaw (List.replicate 100 0) 1001 4294967296) 12 = 0 :=
  ⟨⟨by norm_num, by norm_num⟩, by norm_num, by decide⟩

/-- Claim C10: when the server's socket is null (after `stop()` or before
`start()`), `handleReport` does nothing for any incoming report: it sends no
datagram, builds no packet, and leaves the client registry untouched — in
particular no eviction sweep runs. -/
theorem handleReport_noop_without_socket (st : ServerState) (data : DualshockData)
    (now limit : Int) (h : st.socketOpen = false) :
    handleReport st data now limit = (st, []) := by
  simp [handleReport, h]

/-- A concrete server state for the C10 witness: socket closed and one
registered client whose every timestamp is stale at the witness time, so an
eviction sweep would have removed it. -/
def c10State : ServerState :=
  { socketOpen := false, serverId := 7, controllers := List.replicate 4 none,
    clients := [(⟨0, "10.0.0.5", 26760⟩, ⟨0, [0, 0, 0, 0], [("aa:aa:aa:aa:aa:aa", 0)]⟩)] }

/-- A concrete controller meta for the C10 witness. -/
def c10Meta : DualshockMeta :=
  { padId := 0, state := 2, model := 2, connectionType := 1,
    macAddress := "aa:aa:aa:aa:aa:aa", batteryStatus := 4, isActive := true }

/-- A concrete all-buttons-idle button state for witnesses. -/
def c10Buttons : ButtonState :=
  { dPad := ⟨false, false, false, false⟩, CROSS := false, CIRCLE := false,
    SQUARE := false, TRIANGLE := false, L1 := false, R1 := false, L2 := false,
    R2 := false, L3 := false, R3 := false, options := false, share := false,
    PS := false, touch := false }

/-- A concrete controller report for the C10 witness. -/
def c10Report : DualshockReport :=
  { packetCounter := 1, button := c10Buttons,
    position := ⟨⟨128, 128⟩, ⟨128, 128⟩⟩, trigger := ⟨0, 0⟩,
    trackPad := ⟨⟨false, 0, 0, 0⟩, ⟨false, 0, 0, 0⟩⟩,
    motionTimestamp := ⟨0, 0⟩, accelerometer := ⟨0, 0, 0⟩, gyro := ⟨0, 0, 0⟩ }

/-- A concrete report event for the C10 witness. -/
def c10Data : DualshockData := { meta := c10Meta, report := c10Report }

/-- Witness for C10: at a concrete closed-socket state with a stale client,
`handleReport` returns the state unchanged and sends nothing. -/
theorem handleReport_noop_without_socket_witness :
    handleReport c10State c10Data 12345 5000 = (c10State, []) :=
  handleReport_noop_without_socket c10State c10Data 12345 5000 rfl

/-- The concrete `DSUC_PadDataReq` datagram used to exhibit claim C6's bug:
protocol version 1001, declared payload length 12, correct CRC, flags 0,
pad id 0, MAC aa:bb:cc:dd:ee:ff. -/
def c6Datagram : List Nat :=
  writeUInt32LE
    [68, 83, 85, 67, 233, 3, 12, 0, 0, 0, 0, 0, 1, 0, 0, 0, 2, 0, 16, 0, 0, 0,
      170, 187, 204, 221, 238, 255] 8
    (crc32 [68, 83, 85, 67, 233, 3, 12, 0, 0, 0, 0, 0, 1, 0, 0, 0, 2, 0, 16, 0, 0, 0,
      170, 187, 204, 221, 238, 255])

/-- Claim C6 (code bug): the registry is keyed by the endpoint object
identity, not by (address, port) value; two pad-data requests from the same
address and port, delivered as two fresh endpoint objects, leave two registry
entries whose address and port both match, instead of the second request
updating the first record. -/
theorem clients_map_duplicate_endpoint_entries :
    ((onMessage (onMessage ⟨true, 7, List.replicate 4 none, []⟩ c6Datagram
        ⟨0, "127.0.0.1", 26760⟩ 100).1 c6Datagram ⟨1, "127.0.0.1", 26760⟩ 200).1.clients.map
      (fun p => (p.1.address, p.1.port))) = [("127.0.0.1", 26760), ("127.0.0.1", 26760)] := by
  decide

/-- Counterexample to claim C4 as stated: a datagram whose magic is not
"DSUC" is dropped without a response but also without any error event, so
not every malformed datagram emits an error. -/
theorem onMessage_bad_magic_silently_ignored :
    (byteAt [0] 0 = charCode 'D' ∧ byteAt [0] 1 = charCode 'S' ∧
      byteAt [0] 2 = charCode 'U' ∧ byteAt [0] 3 = charCode 'C' → False) ∧
    onMessage ⟨true, 7, List.replicate 4 none, []⟩ [0] ⟨0, "a", 1⟩ 0 =
      (⟨true, 7, List.replicate 4 none, []⟩, [], []) :=
  ⟨by decide, by decide⟩

theorem beginPacketRaw_crc_zero (l : List Nat) (pv sid : Nat) (h : 16 ≤ l.length) :
    byteAt (beginPacketRaw l pv sid) 8 = 0 ∧ byteAt (beginPacketRaw l pv sid) 9 = 0 ∧
    byteAt (beginPacketRaw l pv sid) 10 = 0 ∧ byteAt (beginPacketRaw l pv sid) 11 = 0 := by
  refine ⟨?_, ?_, ?_, ?_⟩ <;>
  · simp only [beginPacketRaw, writeUInt32LE, writeUInt16LE]
    repeat rw [byteAt_setByte_ne (by omega)]
    rw [byteAt_setByte_self _ _ (by simp only [length_setByte]; omega)]

/-- A concrete controller meta with a canonical MAC string, for witnesses. -/
def wMeta : DualshockMeta :=
  { padId := 1, state := 2, model := 2, connectionType := 1,
    macAddress := "aa:bb:cc:dd:ee:ff", batteryStatus := 4, isActive := true }

/-- A concrete controller report with an active first touch (id 9, x 0x1234,
y 0x5678) and motion timestamp low half 0xAABBCCDD, for witnesses. -/
def wReport : DualshockReport :=
  { packetCounter := 5, button := c10Buttons,
    position := ⟨⟨128, 128⟩, ⟨128, 128⟩⟩, trigger := ⟨0, 0⟩,
    trackPad := ⟨⟨true, 9, 0x1234, 0x5678⟩, ⟨false, 0, 0, 0⟩⟩,
    motionTimestamp := ⟨0xAABBCCDD, 0⟩, accelerometer := ⟨0, 0, 0⟩, gyro := ⟨0, 0, 0⟩ }

/-- Counterexample to claim C1 as stated: in the datagram built for `wReport`
(whose first touch is active with id 9), offset 56 holds the touch-active
flag 1, not a reserved zero, and offset 57 holds the touch id, not the
active flag.  The serializer's bare `outIndex++` after the trigger bytes
only switches from pre- to post-increment style; it skips nothing. -/
theorem padData_offset56_not_reserved :
    byteAt (padDataBuffer 7 wMeta wReport) 56 = 1 ∧
    ¬ byteAt (padDataBuffer 7 wMeta wReport) 56 = 0 ∧
    byteAt (padDataBuffer 7 wMeta wReport) 57 = 9 :=
  ⟨by decide, by decide, by decide⟩

/-- Claim C1 amended: in every outbound 100-byte pad-data datagram (for a
canonical six-group MAC string), Touch #1 isActive is at offset 56, Touch #1
id at offset 57, Touch #1 X at offsets 58..59 (LE u16), and the low 32 bits
of motionTimestamp occupy offsets 68..71 (LE u32); there is no reserved
zero byte before the touch block. -/
theorem padData_touch_and_timestamp_offsets (serverId : Nat) (meta : DualshockMeta)
    (report : DualshockReport) (hmac : (jsSplit meta.macAddress ':').length = 6) :
    byteAt (padDataBuffer serverId meta report) 56 =
      (if report.trackPad.first.isActive then 1 else 0) ∧
    byteAt (padDataBuffer serverId meta report) 57 = report.trackPad.first.id % 256 ∧
    readUInt16LE (padDataBuffer serverId meta report) 58 = report.trackPad.first.x % 65536 ∧
    readUInt32LE (padDataBuffer serverId meta report) 68 =
      report.motionTimestamp.low % 4294967296 := by
  have hm : ((jsSplit meta.macAddress ':').map parseIntHex).length = 6 := by
    rw [List.length_map, hmac]
  refine ⟨?_, ?_, ?_, ?_⟩ <;>
    simp [padDataBuffer, beginPacket, padDataBody, beginPacketRaw, finishPacket,
      writeUInt32LE, writeUInt16LE, hm, byteAt_ite, length_ite, byteAt_setByte_ne,
      byteAt_setByte_self, byteAt_fillAt_lt, byteAt_fillAt_ge, length_setByte, length_fillAt,
      readUInt16LE, readUInt32LE] <;>
    first
    | omega
    | (cases report.trackPad.first.isActive <;> simp)

/-- Witness for the amended C1 at the concrete `wMeta`/`wReport`. -/
theorem padData_touch_and_timestamp_offsets_witness :
    byteAt (padDataBuffer 7 wMeta wReport) 56 =
      (if wReport.trackPad.first.isActive then 1 else 0) ∧
    byteAt (padDataBuffer 7 wMeta wReport) 57 = wReport.trackPad.first.id % 256 ∧
    readUInt16LE (padDataBuffer 7 wMeta wReport) 58 = wReport.trackPad.first.x % 65536 ∧
    readUInt32LE (padDataBuffer 7 wMeta wReport) 68 =
      wReport.motionTimestamp.low % 4294967296 :=
  padData_touch_and_timestamp_offsets 7 wMeta wReport (by decide)

/-- Claim C2: in every outbound datagram the server builds — the version and
port-info responses go through `sendPacket`, the pad-data response through
`handleReport`'s buffer — the u32 read little-endian at offset 8 equals the
CRC-32 of the whole datagram with bytes 8..11 zeroed (for the pad-data
datagram, given a canonical six-group MAC string, since the serializer's
offsets shift with the number of MAC groups). -/
theorem outbound_crc_field_matches :
    (∀ (body : List Nat) (protocolVer serverId : Nat),
      readUInt32LE (sendPacketBuffer body protocolVer serverId) 8 =
        crc32 (zeroCrc (sendPacketBuffer body protocolVer serverId))) ∧
    (∀ (serverId : Nat) (meta : DualshockMeta) (report : DualshockReport),
      (jsSplit meta.macAddress ':').length = 6 →
      readUInt32LE (padDataBuffer serverId meta report) 8 =
        crc32 (zeroCrc (padDataBuffer serverId meta report))) := by
  constructor
  · intro body pv sid
    have e : sendPacketBuffer body pv sid =
        finishPacket (fillAt (beginPacketRaw (List.replicate (body.length + 16) 0) pv sid)
          16 body) := by
      simp [sendPacketBuffer, beginPacket, Nat.le_add_left]
    have hlen : 16 ≤ (List.replicate (body.length + 16) (0 : Nat)).length := by
      simp
    obtain ⟨h8, h9, h10, h11⟩ := beginPacketRaw_crc_zero
      (List.replicate (body.length + 16) 0) pv sid hlen
    rw [e]
    apply finishPacket_crc_ok
    · rw [length_fillAt]
      simp only [beginPacketRaw, writeUInt32LE, writeUInt16LE, length_setByte,
        List.length_replicate]
      omega
    · rw [byteAt_fillAt_lt 8 body 16 _ (by omega)]; exact h8
    · rw [byteAt_fillAt_lt 9 body 16 _ (by omega)]; exact h9
    · rw [byteAt_fillAt_lt 10 body 16 _ (by omega)]; exact h10
    · rw [byteAt_fillAt_lt 11 body 16 _ (by omega)]; exact h11
  · intro sid meta report hmac
    have hm : ((jsSplit meta.macAddress ':').map parseIntHex).length = 6 := by
      rw [List.length_map, hmac]
    have e : padDataBuffer sid meta report =
        finishPacket (padDataBody (beginPacketRaw (List.replicate 100 0) 1001 sid)
          meta report) := by
      simp [padDataBuffer, beginPacket]
    rw [e]
    apply finishPacket_crc_ok <;>
      simp [padDataBody, beginPacketRaw, finishPacket, writeUInt32LE, writeUInt16LE, hm,
        byteAt_ite, length_ite, byteAt_setByte_ne, byteAt_setByte_self, byteAt_fillAt_lt,
        byteAt_fillAt_ge, length_setByte, length_fillAt]

/-- Witness for C2 at a concrete version-response body and at the concrete
pad-data datagram for `wMeta`/`wReport`. -/
theorem outbound_crc_field_matches_witness :
    readUInt32LE (sendPacketBuffer [0, 0, 16, 0, 233, 3, 0, 0] 1001 7) 8 =
      crc32 (zeroCrc (sendPacketBuffer [0, 0, 16, 0, 233, 3, 0, 0] 1001 7)) ∧
    readUInt32LE (padDataBuffer 7 wMeta wReport) 8 =
      crc32 (zeroCrc (padDataBuffer 7 wMeta wReport)) :=
  ⟨outbound_crc_field_matches.1 [0, 0, 16, 0, 233, 3, 0, 0] 1001 7,
    outbound_crc_field_matches.2 7 wMeta wReport (by decide)⟩

/-- Claim C3: the pad-data datagram `handleReport` builds is exactly 100
bytes, and its payload-length field (u16 LE at offset 6) is 84, the total
length minus the 16-byte header (payload-field statement for a canonical
six-group MAC string, since the serializer's offsets shift with the number
of MAC groups). -/
theorem padData_datagram_length_and_payload_field (serverId : Nat) (meta : DualshockMeta)
    (report : DualshockReport) (hmac : (jsSplit meta.macAddress ':').length = 6) :
    (padDataBuffer serverId meta report).length = 100 ∧
    readUInt16LE (padDataBuffer serverId meta report) 6 = 84 := by
  have hm : ((jsSplit meta.macAddress ':').map parseIntHex).length = 6 := by
    rw [List.length_map, hmac]
  refine ⟨?_, ?_⟩ <;>
    simp [padDataBuffer, beginPacket, padDataBody, beginPacketRaw, finishPacket,
      writeUInt32LE, writeUInt16LE, hm, byteAt_ite, length_ite, byteAt_setByte_ne,
      byteAt_setByte_self, byteAt_fillAt_lt, byteAt_fillAt_ge, length_setByte, length_fillAt,
      readUInt16LE]

/-- Witness for C3 at the concrete `wMeta`/`wReport`. -/
theorem padData_datagram_length_and_payload_field_witness :
    (padDataBuffer 7 wMeta wReport).length = 100 ∧
    readUInt16LE (padDataBuffer 7 wMeta wReport) 6 = 84 :=
  padData_datagram_length_and_payload_field 7 wMeta wReport (by decide)

/-- Claim C4 amended: a datagram whose magic is not "DSUC" is silently
ignored (no response, no error event); a datagram with declared protocol
version above `MaxProtocolVer`, with a CRC mismatch after zeroing bytes
8..11, with an out-of-range `numOfPadRequests`, or with an out-of-range pad
index receives no response datagram and throws exactly one error onto the
server's error stream, leaving the state unchanged. -/
theorem onMessage_malformed_no_response :
    (∀ (st : ServerState) (data : List Nat) (ep : AddressInfo) (now : Int),
      ¬(byteAt data 0 = charCode 'D' ∧ byteAt data 1 = charCode 'S' ∧
        byteAt data 2 = charCode 'U' ∧ byteAt data 3 = charCode 'C') →
      onMessage st data ep now = (st, [], [])) ∧
    (∀ (st : ServerState) (data : List Nat) (ep : AddressInfo) (now : Int),
      (byteAt data 0 = charCode 'D' ∧ byteAt data 1 = charCode 'S' ∧
        byteAt data 2 = charCode 'U' ∧ byteAt data 3 = charCode 'C') →
      MaxProtocolVer < readUInt16LE data 4 →
      onMessage st data ep now = (st, [], [UdpError.outdatedProtocol])) ∧
    (∀ (st : ServerState) (data : List Nat) (ep : AddressInfo) (now : Int),
      (byteAt data 0 = charCode 'D' ∧ byteAt data 1 = charCode 'S' ∧
        byteAt data 2 = charCode 'U' ∧ byteAt data 3 = charCode 'C') →
      ¬(MaxProtocolVer < readUInt16LE data 4) →
      readUInt32LE data 8 ≠ crc32 (zeroCrc data) →
      onMessage st data ep now = (st, [], [UdpError.crcMismatch])) ∧
    (∀ (st : ServerState) (data : List Nat) (ep : AddressInfo) (now : Int),
      (byteAt data 0 = charCode 'D' ∧ byteAt data 1 = charCode 'S' ∧
        byteAt data 2 = charCode 'U' ∧ byteAt data 3 = charCode 'C') →
      ¬(MaxProtocolVer < readUInt16LE data 4) →
      readUInt32LE data 8 = crc32 (zeroCrc data) →
      readUInt32LE (zeroCrc data) 16 = DSUC_ListPorts →
      (readInt32LE (zeroCrc data) 20 < 0 ∨ 4 < readInt32LE (zeroCrc data) 20) →
      onMessage st data ep now = (st, [], [UdpError.numPadRequestsOutOfRange])) ∧
    (∀ (st : ServerState) (data : List Nat) (ep : AddressInfo) (now : Int),
      (byteAt data 0 = charCode 'D' ∧ byteAt data 1 = charCode 'S' ∧
        byteAt data 2 = charCode 'U' ∧ byteAt data 3 = charCode 'C') →
      ¬(MaxProtocolVer < readUInt16LE data 4) →
      readUInt32LE data 8 = crc32 (zeroCrc data) →
      readUInt32LE (zeroCrc data) 16 = DSUC_ListPorts →
      ¬(readInt32LE (zeroCrc data) 20 < 0 ∨ 4 < readInt32LE (zeroCrc data) 20) →
      ((List.range (readInt32LE (zeroCrc data) 20).toNat).any
        (fun i => decide (3 < byteAt (zeroCrc data) (24 + i)))) = true →
      onMessage st data ep now = (st, [], [UdpError.padIndexOutOfRange])) := by
  refine ⟨?_, ?_, ?_, ?_, ?_⟩
  · intro st data ep now h
    simp only [onMessage]
    rw [if_neg h]
  · intro st data ep now hmagic hver
    simp only [onMessage]
    rw [if_pos hmagic, if_pos hver]
  · intro st data ep now hmagic hver hcrc
    simp only [onMessage]
    rw [if_pos hmagic, if_neg hver, if_neg (by omega), if_pos hcrc]
  · intro st data ep now hmagic hver hcrc hmsg hn
    simp only [onMessage]
    rw [if_pos hmagic, if_neg hver, if_neg (by omega), if_neg (fun hne => hne hcrc),
      if_neg (by rw [hmsg]; decide), if_pos hmsg, if_pos hn]
  · intro st data ep now hmagic hver hcrc hmsg hn hany
    simp only [onMessage]
    rw [if_pos hmagic, if_neg hver, if_neg (by omega), if_neg (fun hne => hne hcrc),
      if_neg (by rw [hmsg]; decide), if_pos hmsg, if_neg hn, if_pos hany]

/-- A concrete DSUC datagram declaring protocol version 1002. -/
def c4VerHigh : List Nat := [68, 83, 85, 67, 234, 3, 0, 0, 0, 0, 0, 0]

/-- A concrete DSUC datagram with version 1001 but a wrong (zero) CRC. -/
def c4CrcBad : List Nat := [68, 83, 85, 67, 233, 3, 0, 0, 0, 0, 0, 0]

/-- A concrete CRC-valid `DSUC_ListPorts` datagram asking for 5 pads. -/
def c4BadN : List Nat :=
  writeUInt32LE
    [68, 83, 85, 67, 233, 3, 8, 0, 0, 0, 0, 0, 1, 0, 0, 0, 1, 0, 16, 0, 5, 0, 0, 0] 8
    (crc32 [68, 83, 85, 67, 233, 3, 8, 0, 0, 0, 0, 0, 1, 0, 0, 0, 1, 0, 16, 0, 5, 0, 0, 0])

/-- A concrete CRC-valid `DSUC_ListPorts` datagram asking for pad index 9. -/
def c4BadIndex : List Nat :=
  writeUInt32LE
    [68, 83, 85, 67, 233, 3, 9, 0, 0, 0, 0, 0, 1, 0, 0, 0, 1, 0, 16, 0, 1, 0, 0, 0, 9] 8
    (crc32 [68, 83, 85, 67, 233, 3, 9, 0, 0, 0, 0, 0, 1, 0, 0, 0, 1, 0, 16, 0, 1, 0, 0, 0, 9])

/-- Witness for the amended C4: each of the four throwing malformed-datagram
classes, at a concrete datagram and server state, yields no packets and
exactly its error. -/
theorem onMessage_malformed_no_response_witness :
    onMessage ⟨true, 7, List.replicate 4 none, []⟩ c4VerHigh ⟨0, "a", 1⟩ 0 =
      (⟨true, 7, List.replicate 4 none, []⟩, [], [UdpError.outdatedProtocol]) ∧
    onMessage ⟨true, 7, List.replicate 4 none, []⟩ c4CrcBad ⟨0, "a", 1⟩ 0 =
      (⟨true, 7, List.replicate 4 none, []⟩, [], [UdpError.crcMismatch]) ∧
    onMessage ⟨true, 7, List.replicate 4 none, []⟩ c4BadN ⟨0, "a", 1⟩ 0 =
      (⟨true, 7, List.replicate 4 none, []⟩, [], [UdpError.numPadRequestsOutOfRange]) ∧
    onMessage ⟨true, 7, List.replicate 4 none, []⟩ c4BadIndex ⟨0, "a", 1⟩ 0 =
      (⟨true, 7, List.replicate 4 none, []⟩, [], [UdpError.padIndexOutOfRange]) :=
  ⟨onMessage_malformed_no_response.2.1 _ _ _ _ (by decide) (by decide),
   onMessage_malformed_no_response.2.2.1 _ _ _ _ (by decide) (by decide) (by decide),
   onMessage_malformed_no_response.2.2.2.1 _ _ _ _ (by decide) (by decide) (by decide)
     (by decide) (by decide),
   onMessage_malformed_no_response.2.2.2.2 _ _ _ _ (by decide) (by decide) (by decide)
     (by decide) (by decide) (by decide)⟩

theorem padFresh_imp_any (meta : DualshockMeta) (now limit : Int)
    (times : ClientRequestTimes)
    (h : (decide (meta.padId < times.timeForPadById.length) &&
      fresh now limit (times.timeForPadById.getD meta.padId 0)) = true) :
    times.timeForPadById.any (fun t => fresh now limit t) = true := by
  rcases Bool.and_eq_true_iff.mp h with ⟨hlt, hf⟩
  have hlt' := of_decide_eq_true hlt
  rw [List.any_eq_true]
  refine ⟨times.timeForPadById.getD meta.padId 0, ?_, hf⟩
  rw [List.getD_eq_getElem _ _ hlt']
  exact List.getElem_mem hlt'

theorem macFresh_imp_any (now limit : Int) (times : ClientRequestTimes) (mac : String)
    (h : (match mapGet? times.timeForPadByMac mac with
      | some t => fresh now limit t
      | none => false) = true) :
    times.timeForPadByMac.any (fun q => fresh now limit q.2) = true := by
  cases hm : mapGet? times.timeForPadByMac mac with
  | none => rw [hm] at h; cases h
  | some t0 =>
    rw [hm] at h
    rw [List.any_eq_true]
    rw [mapGet?] at hm
    cases hf : List.find? (fun p => p.1 == mac) times.timeForPadByMac with
    | none => rw [hf] at hm; cases hm
    | some q =>
      rw [hf] at hm
      simp at hm
      refine ⟨q, List.mem_of_find?_eq_some hf, ?_⟩
      rw [hm]
      exact h

theorem clientsForStep_eq (meta : DualshockMeta) (now limit : Int)
    (acc : List AddressInfo × List AddressInfo) (p : AddressInfo × ClientRequestTimes) :
    clientsForStep meta now limit acc p =
      (acc.1 ++ (if clientInterested meta now limit p.2 then [p.1] else []),
       acc.2 ++ (if clientAnyFresh now limit p.2 then [] else [p.1])) := by
  simp only [clientsForStep]
  by_cases ha : fresh now limit p.2.timeForAllPads = true
  · rw [if_pos ha,
      if_pos (show clientInterested meta now limit p.2 = true by
        rw [clientInterested, ha]; simp),
      if_pos (show clientAnyFresh now limit p.2 = true by rw [clientAnyFresh, ha]; simp)]
    first | rfl | simp
  · have ha' : fresh now limit p.2.timeForAllPads = false := (Bool.not_eq_true _) ▸ ha
    rw [if_neg ha]
    by_cases hb : (decide (meta.padId < p.2.timeForPadById.length) &&
        fresh now limit (p.2.timeForPadById.getD meta.padId 0)) = true
    · rw [if_pos hb,
        if_pos (show clientInterested meta now limit p.2 = true by
          rw [clientInterested, hb]; simp),
        if_pos (show clientAnyFresh now limit p.2 = true by
          rw [clientAnyFresh, padFresh_imp_any meta now limit p.2 hb]; simp)]
      first | rfl | simp
    · have hb' : (decide (meta.padId < p.2.timeForPadById.length) &&
          fresh now limit (p.2.timeForPadById.getD meta.padId 0)) = false :=
        (Bool.not_eq_true _) ▸ hb
      rw [if_neg hb]
      by_cases hc : (match mapGet? p.2.timeForPadByMac meta.macAddress with
          | some t => fresh now limit t
          | none => false) = true
      · rw [if_pos hc,
          if_pos (show clientInterested meta now limit p.2 = true by
            rw [clientInterested, hc]; simp),
          if_pos (show clientAnyFresh now limit p.2 = true by
            rw [clientAnyFresh, macFresh_imp_any now limit p.2 meta.macAddress hc]; simp)]
        first | rfl | simp
      · have hc' : (match mapGet? p.2.timeForPadByMac meta.macAddress with
            | some t => fresh now limit t
            | none => false) = false := (Bool.not_eq_true _) ▸ hc
        rw [if_neg hc]
        by_cases hd : (p.2.timeForPadById.any (fun t => fresh now limit t) ||
            p.2.timeForPadByMac.any (fun q => fresh now limit q.2)) = true
        · rw [if_pos hd,
            if_neg (show ¬ clientInterested meta now limit p.2 = true by
              rw [clientInterested, ha', hb', hc']; simp),
            if_pos (show clientAnyFresh now limit p.2 = true by
              rcases Bool.or_eq_true_iff.mp hd with h45 | h45 <;>
                rw [clientAnyFresh, h45] <;> simp)]
          first | rfl | simp
        · obtain ⟨h4, h5⟩ := Bool.or_eq_false_iff.mp ((Bool.not_eq_true _) ▸ hd)
          rw [if_neg hd,
            if_neg (show ¬ clientInterested meta now limit p.2 = true by
              rw [clientInterested, ha', hb', hc']; simp),
            if_neg (show ¬ clientAnyFresh now limit p.2 = true by
              rw [clientAnyFresh, ha', h4, h5]; simp)]
          first | rfl | simp

theorem clientsFor_foldl (meta : DualshockMeta) (now limit : Int)
    (cs : List (AddressInfo × ClientRequestTimes)) :
    ∀ acc : List AddressInfo × List AddressInfo,
      cs.foldl (clientsForStep meta now limit) acc =
        (acc.1 ++ (cs.filter (fun p => clientInterested meta now limit p.2)).map Prod.fst,
         acc.2 ++ (cs.filter (fun p => !clientAnyFresh now limit p.2)).map Prod.fst) := by
  induction cs with
  | nil => intro acc; simp
  | cons p t ih =>
    intro acc
    rw [List.foldl_cons, clientsForStep_eq, ih]
    cases hi : clientInterested meta now limit p.2 <;>
      cases ha : clientAnyFresh now limit p.2 <;>
      simp [hi, ha, List.filter_cons]

/-- Claim C7: `getClientsForReport`, called at `now`, returns exactly the
registered clients with a fresh all-pads stamp, a fresh stamp for this
report's pad id, or a fresh stamp for this report's MAC (in registry order);
it removes exactly the clients none of whose timestamps — all-pads, any
per-pad, any per-MAC — are fresh; and afterwards every client still in the
registry has at least one fresh timestamp.  The registry keys are assumed
pairwise distinct, which JS `Map` guarantees. -/
theorem getClientsForReport_spec (clientsMap : List (AddressInfo × ClientRequestTimes))
    (meta : DualshockMeta) (now limit : Int)
    (hkeys : (clientsMap.map Prod.fst).Nodup) :
    getClientsForReport clientsMap meta now limit =
      ((clientsMap.filter (fun p => clientInterested meta now limit p.2)).map Prod.fst,
       clientsMap.filter (fun p => clientAnyFresh now limit p.2)) ∧
    ∀ p ∈ (getClientsForReport clientsMap meta now limit).2,
      clientAnyFresh now limit p.2 = true := by
  have e2 : clientsMap.filter (fun p => decide (p.1 ∉ ((clientsMap.filter
      (fun p => !clientAnyFresh now limit p.2)).map Prod.fst))) =
      clientsMap.filter (fun p => clientAnyFresh now limit p.2) := by
    apply List.filter_congr
    intro p hp
    by_cases hf : clientAnyFresh now limit p.2 = true
    · rw [hf]
      apply decide_eq_true
      intro hin
      rcases List.mem_map.mp hin with ⟨q, hqmem, hq1⟩
      rcases List.mem_filter.mp hqmem with ⟨hqcs, hqstale⟩
      have hqp : q = p := List.inj_on_of_nodup_map hkeys hqcs hp hq1
      rw [hqp, hf] at hqstale
      cases hqstale
    · have hf' : clientAnyFresh now limit p.2 = false := (Bool.not_eq_true _) ▸ hf
      rw [hf']
      apply decide_eq_false
      intro hnin
      exact hnin (List.mem_map.mpr ⟨p, List.mem_filter.mpr ⟨hp, by rw [hf']; rfl⟩, rfl⟩)
  have e1 : getClientsForReport clientsMap meta now limit =
      ((clientsMap.filter (fun p => clientInterested meta now limit p.2)).map Prod.fst,
       clientsMap.filter (fun p => clientAnyFresh now limit p.2)) := by
    rw [getClientsForReport, clientsFor_foldl meta now limit clientsMap ([], [])]
    simp only [List.nil_append]
    rw [e2]
  refine ⟨e1, ?_⟩
  intro p hp
  rw [e1] at hp
  exact (List.mem_filter.mp hp).2

/-- A concrete three-client registry for the C7 witness: client 0 has a
fresh all-pads stamp, client 1 is stale in every dimension, client 2 has a
fresh stamp for pad 1 only. -/
def c7Clients : List (AddressInfo × ClientRequestTimes) :=
  [(⟨0, "a", 1⟩, ⟨95, [0, 0, 0, 0], []⟩),
   (⟨1, "b", 2⟩, ⟨0, [0, 0, 0, 0], []⟩),
   (⟨2, "c", 3⟩, ⟨0, [0, 96, 0, 0], []⟩)]

/-- Witness for C7 at the concrete registry `c7Clients`, report meta `wMeta`
(pad id 1), time 100 and timeout 10: clients 0 and 2 are returned and the
stale client 1 is evicted. -/
theorem getClientsForReport_spec_witness :
    getClientsForReport c7Clients wMeta 100 10 =
      ((c7Clients.filter (fun p => clientInterested wMeta 100 10 p.2)).map Prod.fst,
       c7Clients.filter (fun p => clientAnyFresh 100 10 p.2)) ∧
    ∀ p ∈ (getClientsForReport c7Clients wMeta 100 10).2,
      clientAnyFresh 100 10 p.2 = true :=
  getClientsForReport_spec c7Clients wMeta 100 10 (by decide)
